import Mathlib

/-!
Shallow embedding of `synapse/api/handlers/room.py` (message, room-creation
and room-membership handlers) and proofs about the membership state machine,
the access gate for path data and messages, room creation, and the
membership-change notifier.

Modelling conventions, mirroring the Python/Twisted source:

* The external Store (`synapse.api.event_store`, not part of this core) is
  modelled from the spec's Store contract as explicit state: association
  lists for rooms, membership records, messages and path data.  A membership
  write prepends a record; a lookup returns the most recent record for the
  `(room, user)` pair.  The handlers only test a returned row list for
  emptiness and take its head, so a lookup is modelled as an `Option`.
* Store calls that the claims exercise under failure carry an explicit
  fault flag (`True` = the Deferred fires with a `StoreException`).
* Python truthiness of an optional string (`if event.auth_user_id:`) is
  `truthy_str`: `None` and the empty string are falsy.
* `raise` is modelled by returning an error value; a handler that mutates
  the store returns the final store together with an optional error, so the
  store contents at the point of an abort are visible in the result.
* Opaque JSON content of messages is modelled by `MsgContent`;
  `json.dumps` on an opaque value is representation only and is modelled as
  the identity.
-/

namespace Synapse

/-- Membership enum from `room.py` (`class Membership`): plain string
constants in the source, compared with `==`. -/
abbrev Membership.INVITE : String := "invite"

/-- Membership enum value `JOIN` (`"join"`). -/
abbrev Membership.JOIN : String := "join"

/-- Membership enum value `KNOCK` (`"knock"`). -/
abbrev Membership.KNOCK : String := "knock"

/-- Membership enum value `LEAVE` (`"leave"`). -/
abbrev Membership.LEAVE : String := "leave"

/-- Modelled from the spec: the room-topic event type constant
(`RoomTopicEvent.TYPE`, from `synapse.api.events.room`, which is outside
this core).  Only its identity matters: `get_room_path_data` compares
`event.type` against it. -/
def RoomTopicEvent.TYPE : String := "sy.room.topic"

/-- A room row of the Store: id, visibility flag, creator. -/
structure RoomRec where
  room_id : String
  is_public : Bool
  creator_user_id : String
deriving DecidableEq, Repr

/-- A membership row of the Store for a `(room, user)` pair. -/
structure MemberRec where
  room_id : String
  user_id : String
  membership : String
  content : String
deriving DecidableEq, Repr

/-- Opaque JSON message content.  `json dict` with a `msgtype` and `body`
field models the notifier's `membership_json`; `blob` models arbitrary
caller-supplied content. -/
inductive MsgContent where
  | dict (msgtype : String) (body : String)
  | blob (data : String)
deriving DecidableEq, Repr

/-- A message row of the Store. -/
structure MsgRec where
  room_id : String
  user_id : String
  msg_id : String
  content : MsgContent
deriving DecidableEq, Repr

/-- Modelled from the spec: the external Store's state (rooms, membership
records, messages, path data).  Membership and message writes prepend, so
the head of the filtered list is the most recent record. -/
structure Store where
  rooms : List RoomRec
  members : List MemberRec
  messages : List MsgRec
  path_data : List (String × String)
deriving DecidableEq, Repr

/-- Modelled from the spec: `Store.getRoom(roomId) -> Room | None`. -/
def Store.get_room (s : Store) (room_id : String) : Option RoomRec :=
  s.rooms.find? (fun r => r.room_id == room_id)

/-- Modelled from the spec: `Store.getMembership(roomId, userId)`; the
most recent membership record for the pair, if any. -/
def Store.get_room_member (s : Store) (room_id user_id : String) :
    Option MemberRec :=
  s.members.find? (fun m => m.room_id == room_id && m.user_id == user_id)

/-- Modelled from the spec: `Store.storeMembership`; prepends the new
record, which thereby becomes the current state for the pair. -/
def Store.store_room_member (s : Store) (room_id user_id membership content : String) :
    Store :=
  { s with members := ⟨room_id, user_id, membership, content⟩ :: s.members }

/-- Modelled from the spec: `Store.storeMessage(userId, roomId, msgId, content)`. -/
def Store.store_message (s : Store) (user_id room_id msg_id : String)
    (content : MsgContent) : Store :=
  { s with messages := ⟨room_id, user_id, msg_id, content⟩ :: s.messages }

/-- Modelled from the spec: `Store.getPathData(path) -> content | None`. -/
def Store.get_path_data (s : Store) (path : String) : Option String :=
  (s.path_data.find? (fun p => p.1 == path)).map (fun p => p.2)

/-- Modelled from the spec: `Store.storeRoom(roomId?, creatorId, isPublic)
-> newRoomId | None`, `None` signalling an id conflict; a `None` proposed id
gets a generated one.  Returns the store result and the new store state. -/
def Store.store_room (s : Store) (room_id : Option String)
    (room_creator_user_id : String) (is_public : Bool) :
    Option String × Store :=
  let rid := match room_id with
    | some r => r
    | none => "!room" ++ toString s.rooms.length
  if s.rooms.any (fun r => r.room_id == rid) then (none, s)
  else (some rid, { s with rooms := ⟨rid, is_public, room_creator_user_id⟩ :: s.rooms })

/-- `json.dumps` applied to an opaque JSON value: serialization is
representation only, modelled as the identity on the opaque value. -/
def json_dumps (c : MsgContent) : MsgContent := c

/-- Python truthiness of an optional string: `None` and `""` are falsy
(`if event.auth_user_id:` in the handlers). -/
def truthy_str : Option String → Bool
  | none => false
  | some s => !(s == "")

/-- Truthiness of `caller and caller[0].membership == "join"` on the row
list returned by the Store (empty list falsy, head otherwise). -/
def member_joined : Option MemberRec → Bool
  | none => false
  | some m => m.membership == Membership.JOIN

/-- Errors a handler can surface.  `room code reason` is
`RoomError(code, reason)` from `synapse.api.errors`; `unboundLocal var` is
the Python `NameError`/`UnboundLocalError` raised when a local that was
never assigned (because the `try` body failed before the assignment) is
read after an `except: pass`. -/
inductive Err where
  | room (code : Nat) (reason : String)
  | unboundLocal (var : String)
deriving DecidableEq, Repr

/-- Reason string of `_get_joined_or_throw`'s `RoomError` (source line 324;
the escape `\x27` is the source's apostrophe, including the stray trailing
one inside the string literal). -/
def not_joined_reason : String := "Haven\x27t joined room.\x27"

/-- `_get_joined_or_throw(store, user_id, room_id)` (module-level helper):
return the member row, raising `RoomError(403, ...)` when there is no row
or its membership is not `"join"`. -/
def _get_joined_or_throw (s : Store) (room_id user_id : String) :
    Except Err MemberRec :=
  match s.get_room_member room_id user_id with
  | none => .error (.room 403 not_joined_reason)
  | some member =>
    if member.membership == Membership.JOIN then .ok member
    else .error (.room 403 not_joined_reason)

/-- `MessageHandler.send_message(event)`: with a truthy `auth_user_id`,
require `user_id == auth_user_id` and that the requester is joined, then
store the message; with a falsy `auth_user_id` (system path) store it
unconditionally. -/
def MessageHandler.send_message (s : Store) (room_id user_id : String)
    (auth_user_id : Option String) (msg_id : String) (content : MsgContent) :
    Store × Option Err :=
  match auth_user_id with
  | some a =>
    if a == "" then
      (s.store_message user_id room_id msg_id (json_dumps content), none)
    else if !(user_id == a) then
      (s, some (.room 403 "Must send messages as yourself."))
    else
      match _get_joined_or_throw s room_id a with
      | .error e => (s, some e)
      | .ok _ => (s.store_message user_id room_id msg_id (json_dumps content), none)
  | none => (s.store_message user_id room_id msg_id (json_dumps content), none)

/-- Python membership test `member_state in rules` where `member_state` is
`None` when there is no record: `None` is never an element of a list of
strings. -/
def state_in_rules : Option String → List String → Bool
  | none, _ => false
  | some st, rules => rules.contains st

/-- The user id `get_room_path_data` passes to the member lookup:
`"" if not event.auth_user_id else event.auth_user_id`. -/
def auth_lookup_id (auth_user_id : Option String) : String :=
  if truthy_str auth_user_id then auth_user_id.getD "" else ""

/-- `MessageHandler.get_room_path_data(event, path, public_room_rules,
private_room_rules)`: topic events rebind `private_room_rules` (the local
variable only) to `["invite", "join"]`; the room must exist; the
requester's state is checked against the applicable rule list when that
list is non-empty; then the path data is fetched. -/
def MessageHandler.get_room_path_data (s : Store) (etype room_id : String)
    (auth_user_id : Option String) (path : String)
    (public_room_rules private_room_rules : List String) :
    Except Err (Option String) :=
  let private_room_rules :=
    if etype == RoomTopicEvent.TYPE then [Membership.INVITE, Membership.JOIN]
    else private_room_rules
  match s.get_room room_id with
  | none => .error (.room 403 "Room does not exist.")
  | some room =>
    let member := s.get_room_member room_id (auth_lookup_id auth_user_id)
    let member_state : Option String := member.map (fun m => m.membership)
    let check : Option Err :=
      if room.is_public && !public_room_rules.isEmpty then
        if !(state_in_rules member_state public_room_rules) then
          some (.room 403 "Member does not meet public room rules.")
        else none
      else if !room.is_public && !private_room_rules.isEmpty then
        if !(state_in_rules member_state private_room_rules) then
          some (.room 403 "Member does not meet private room rules.")
        else none
      else none
    match check with
    | some e => .error e
    | none => .ok (s.get_path_data path)

/-- `get_room_path_data` at its Python default arguments
(`public_room_rules=[]`, `private_room_rules=["join"]`).  The defaults are
immutable values here; the source only ever rebinds the local, never
mutates the default list. -/
def get_room_path_data_default (s : Store) (etype room_id : String)
    (auth_user_id : Option String) (path : String) :
    Except Err (Option String) :=
  MessageHandler.get_room_path_data s etype room_id auth_user_id path
    [] [Membership.JOIN]

/-- `RoomCreationHandler.create_room(user_id, room_id, config)`: store the
room; a falsy store result is `RoomError(409, "Room ID in use.")`; a
`StoreException` (the `store_faults` flag) is caught and re-raised as
`RoomError(500, "Unable to create room.")`. -/
def RoomCreationHandler.create_room (s : Store) (store_faults : Bool)
    (user_id : String) (room_id : Option String) (visibility : String) :
    Store × Except Err String :=
  if store_faults then (s, .error (.room 500 "Unable to create room."))
  else
    match s.store_room room_id user_id (visibility == "public") with
    | (none, s1) => (s1, .error (.room 409 "Room ID in use."))
    | (some rid, s1) => (s1, .ok rid)

/-- `RoomMemberHandler.get_room_member(event)`: with a truthy
`auth_user_id` the requester must be joined; then the member row for the
target is returned, absence being the non-error `None`/empty result. -/
def RoomMemberHandler.get_room_member (s : Store) (room_id user_id : String)
    (auth_user_id : Option String) : Except Err (Option MemberRec) :=
  match auth_user_id with
  | some a =>
    if a == "" then .ok (s.get_room_member room_id user_id)
    else
      match _get_joined_or_throw s room_id a with
      | .error e => .error e
      | .ok _ => .ok (s.get_room_member room_id user_id)
  | none => .ok (s.get_room_member room_id user_id)

/-- In `change_membership` the room lookup is not yielded:
`room = self.store.get_room(event.room_id)` binds the local to the
`twisted.internet.defer.Deferred` object itself, and a `Deferred` defines
neither `__bool__`/`__nonzero__` nor `__len__`, so Python truth-testing it
(`if not room:`) always sees a truthy object, whatever the store holds.
(Contrast `get_room_path_data`, which yields the same call.) -/
def deferred_truthy : Bool := true

/-- The transition table of `change_membership` (the `if Membership.INVITE
== event.membership ... else raise` chain), on the caller and target rows
already fetched: `some e` means the corresponding `RoomError` is raised,
`none` that the requested transition is allowed. -/
def transition_check (caller target : Option MemberRec)
    (auth_user_id user_id membership : String) : Option Err :=
  let caller_in_room := member_joined caller
  let target_in_room := member_joined target
  if membership == Membership.INVITE then
    if !caller_in_room || target_in_room then
      some (.room 403 "Cannot invite.")
    else none
  else if membership == Membership.JOIN then
    if !(auth_user_id == user_id) ||
        !(match caller with
          | none => false
          | some c => c.membership == Membership.INVITE ||
                      c.membership == Membership.JOIN) then
      some (.room 403 "Cannot join.")
    else none
  else if membership == Membership.LEAVE then
    if !caller_in_room || !(user_id == auth_user_id) then
      some (.room 403 "Cannot leave.")
    else none
  else some (.room 500 ("Unknown membership " ++ membership))

/-- `RoomMemberHandler._inject_membership_msg(room_id, source, target,
membership)`: build the template body (unknown values raise
`RoomError(500, ...)`), then send a `sy.text` message authored by the
reserved system actor `"_hs_"` with `auth_user_id=None` and a msg id
derived from the wall clock (`now`). -/
def RoomMemberHandler._inject_membership_msg (s : Store) (now : Nat)
    (room_id source target membership : String) : Store × Option Err :=
  let body? : Option String :=
    if membership == Membership.INVITE then
      some (source ++ " invited " ++ target ++ " to the room.")
    else if membership == Membership.JOIN then
      some (target ++ " joined the room.")
    else if membership == Membership.LEAVE then
      some (target ++ " left the room.")
    else none
  match body? with
  | none => (s, some (.room 500 ("Unknown membership value " ++ membership)))
  | some body =>
    let membership_json := MsgContent.dict "sy.text" body
    let msg_id := "m" ++ toString now
    MessageHandler.send_message s room_id "_hs_" none msg_id membership_json

/-- `RoomMemberHandler.change_membership(event, broadcast_msg)`.
The room lookup is not yielded (see `deferred_truthy`), so the
`"Room does not exist"` raise is unreachable.  The caller and target
lookups sit in `try ... except: pass`; when such a lookup faults
(`caller_lookup_faults` / `target_lookup_faults`) the store exception is
swallowed, but the local (`caller` / `target`) was never assigned, so the
very next line (`caller_in_room = caller and ...`, resp. `target_in_room =
target and ...`) raises an `UnboundLocalError`, modelled as
`Err.unboundLocal`.  Otherwise the transition table decides; on success the
membership record is written and, with `broadcast_msg`, the notifier
injects the membership message. -/
def RoomMemberHandler.change_membership (s : Store)
    (caller_lookup_faults target_lookup_faults : Bool)
    (auth_user_id user_id room_id membership content : String)
    (broadcast_msg : Bool) (now : Nat) : Store × Option Err :=
  if !deferred_truthy then
    (s, some (.room 403 "Room does not exist"))
  else if caller_lookup_faults then
    (s, some (.unboundLocal "caller"))
  else
    let caller := s.get_room_member room_id auth_user_id
    if target_lookup_faults then
      (s, some (.unboundLocal "target"))
    else
      let target := s.get_room_member room_id user_id
      match transition_check caller target auth_user_id user_id membership with
      | some e => (s, some e)
      | none =>
        let s1 := s.store_room_member room_id user_id membership content
        if broadcast_msg then
          RoomMemberHandler._inject_membership_msg s1 now
            room_id auth_user_id user_id membership
        else (s1, none)

/-! Specification-worded predicates and concrete stores used by the
theorems below. -/

/-- Spec wording for the invite rule: `inJoin(c) ∧ ¬inJoin(t)` on the
current membership records. -/
def invite_allowed (s : Store) (r caller target : String) : Bool :=
  member_joined (s.get_room_member r caller) &&
    !(member_joined (s.get_room_member r target))

/-- Spec wording for the join rule: caller id equals target id and the
caller's current state is INVITE or JOIN. -/
def join_allowed (s : Store) (r caller target : String) : Bool :=
  (caller == target) &&
    (match s.get_room_member r caller with
     | none => false
     | some cm => cm.membership == Membership.INVITE ||
                  cm.membership == Membership.JOIN)

/-- Spec wording of the path-data access decision: a public room with a
non-empty `publicRules` requires the state to be in `publicRules`; a
private room with a non-empty `privateRules` requires it to be in
`privateRules`; an empty applicable rule set allows unconditionally. -/
def spec_path_access (is_public : Bool) (state : Option String)
    (pub priv : List String) : Bool :=
  if is_public then (if pub.isEmpty then true else state_in_rules state pub)
  else (if priv.isEmpty then true else state_in_rules state priv)

/-- Whether a result error is the `RoomError(403, "Room does not exist")`
of `change_membership`'s (dead) room-existence check. -/
def is_room_missing_err : Option Err → Bool
  | some (.room code reason) => code == 403 && reason == "Room does not exist"
  | _ => false

/-- A store whose only room is `!r` (private, created by `a`) and whose
only membership record is `a` joined in `!r`. -/
def demo_store : Store :=
  ⟨[⟨"!r", false, "a"⟩], [⟨"!r", "a", "join", "x"⟩], [], []⟩

/-- A store with no rooms at all, but a (stale) membership record saying
`a` is joined in the nonexistent room `!r`. -/
def no_room_store : Store := ⟨[], [⟨"!r", "a", "join", "x"⟩], [], []⟩

/-- A store whose only room is `!r` with no membership records. -/
def bare_room_store : Store := ⟨[⟨"!r", false, "a"⟩], [], [], []⟩

/-- A store with nothing in it. -/
def empty_store : Store := ⟨[], [], [], []⟩

/-! Reduction lemmas for `change_membership` and its components. -/

theorem change_membership_nofault (s : Store) (a u r m c : String) (b : Bool) (n : Nat) :
    RoomMemberHandler.change_membership s false false a u r m c b n =
      (match transition_check (s.get_room_member r a) (s.get_room_member r u) a u m with
       | some e => (s, some e)
       | none =>
         let s1 := s.store_room_member r u m c
         if b then RoomMemberHandler._inject_membership_msg s1 n r a u m
         else (s1, none)) := rfl

theorem transition_check_invite_raw (caller target : Option MemberRec) (a u : String) :
    transition_check caller target a u Membership.INVITE =
      (if !(member_joined caller) || member_joined target then
        some (.room 403 "Cannot invite.")
       else none) := rfl

theorem transition_check_join_raw (caller target : Option MemberRec) (a u : String) :
    transition_check caller target a u Membership.JOIN =
      (if !(a == u) ||
          !(match caller with
            | none => false
            | some cm => cm.membership == Membership.INVITE ||
                         cm.membership == Membership.JOIN) then
        some (.room 403 "Cannot join.")
       else none) := rfl

theorem transition_check_leave_raw (caller target : Option MemberRec) (a u : String) :
    transition_check caller target a u Membership.LEAVE =
      (if !(member_joined caller) || !(u == a) then
        some (.room 403 "Cannot leave.")
       else none) := rfl

theorem transition_check_unknown (caller target : Option MemberRec) (a u m : String)
    (h1 : m ≠ Membership.INVITE) (h2 : m ≠ Membership.JOIN) (h3 : m ≠ Membership.LEAVE) :
    transition_check caller target a u m =
      some (.room 500 ("Unknown membership " ++ m)) := by
  simp [transition_check, h1, h2, h3]

theorem transition_check_none_mem (caller target : Option MemberRec) (a u m : String)
    (h : transition_check caller target a u m = none) :
    m = Membership.INVITE ∨ m = Membership.JOIN ∨ m = Membership.LEAVE := by
  by_cases h1 : m = Membership.INVITE
  · exact Or.inl h1
  by_cases h2 : m = Membership.JOIN
  · exact Or.inr (Or.inl h2)
  by_cases h3 : m = Membership.LEAVE
  · exact Or.inr (Or.inr h3)
  rw [transition_check_unknown caller target a u m h1 h2 h3] at h
  cases h

theorem transition_check_some_shape (caller target : Option MemberRec) (a u m : String)
    (e : Err) (h : transition_check caller target a u m = some e) :
    e = .room 403 "Cannot invite." ∨ e = .room 403 "Cannot join." ∨
    e = .room 403 "Cannot leave." ∨ e = .room 500 ("Unknown membership " ++ m) := by
  unfold transition_check at h
  simp only [] at h
  split at h
  · split at h
    · exact Or.inl (Option.some.inj h).symm
    · cases h
  · split at h
    · split at h
      · exact Or.inr (Or.inl (Option.some.inj h).symm)
      · cases h
    · split at h
      · split at h
        · exact Or.inr (Or.inr (Or.inl (Option.some.inj h).symm))
        · cases h
      · exact Or.inr (Or.inr (Or.inr (Option.some.inj h).symm))

theorem inject_invite (s : Store) (n : Nat) (r src tgt : String) :
    RoomMemberHandler._inject_membership_msg s n r src tgt Membership.INVITE =
      (s.store_message "_hs_" r ("m" ++ toString n)
        (.dict "sy.text" (src ++ " invited " ++ tgt ++ " to the room.")), none) := rfl

theorem inject_join (s : Store) (n : Nat) (r src tgt : String) :
    RoomMemberHandler._inject_membership_msg s n r src tgt Membership.JOIN =
      (s.store_message "_hs_" r ("m" ++ toString n)
        (.dict "sy.text" (tgt ++ " joined the room.")), none) := rfl

theorem inject_leave (s : Store) (n : Nat) (r src tgt : String) :
    RoomMemberHandler._inject_membership_msg s n r src tgt Membership.LEAVE =
      (s.store_message "_hs_" r ("m" ++ toString n)
        (.dict "sy.text" (tgt ++ " left the room.")), none) := rfl

theorem get_joined_or_throw_false (s : Store) (r u : String)
    (h : member_joined (s.get_room_member r u) = false) :
    _get_joined_or_throw s r u = .error (.room 403 not_joined_reason) := by
  unfold _get_joined_or_throw
  cases hm : s.get_room_member r u with
  | none => rfl
  | some mrec =>
    rw [hm] at h
    simp only [member_joined] at h
    simp [h]

theorem get_joined_or_throw_true (s : Store) (r u : String) (mrec : MemberRec)
    (hm : s.get_room_member r u = some mrec)
    (h : member_joined (s.get_room_member r u) = true) :
    _get_joined_or_throw s r u = .ok mrec := by
  unfold _get_joined_or_throw
  rw [hm] at h ⊢
  simp only [member_joined] at h
  simp [h]

theorem store_member_lookup_self (s : Store) (r u m c : String) :
    (s.store_room_member r u m c).get_room_member r u = some ⟨r, u, m, c⟩ := by
  simp [Store.store_room_member, Store.get_room_member, List.find?]

theorem room_check_never_fires (s : Store) (cf tf : Bool) (a u r m c : String)
    (b : Bool) (n : Nat) :
    (RoomMemberHandler.change_membership s cf tf a u r m c b n).2 ≠
      some (.room 403 "Room does not exist") := by
  cases cf
  case true => simp [RoomMemberHandler.change_membership, deferred_truthy]
  case false =>
  cases tf
  case true => simp [RoomMemberHandler.change_membership, deferred_truthy]
  case false =>
  rw [change_membership_nofault]
  cases htc : transition_check (s.get_room_member r a) (s.get_room_member r u) a u m with
  | some e =>
    rcases transition_check_some_shape _ _ _ _ _ _ htc with h|h|h|h <;> subst h <;> simp
  | none =>
    rcases transition_check_none_mem _ _ _ _ _ htc with h|h|h <;> subst h <;>
      cases b <;> simp [inject_invite, inject_join, inject_leave]

theorem room_missing_err_never (s : Store) (cf tf : Bool) (a u r m c : String)
    (b : Bool) (n : Nat) :
    is_room_missing_err
      (RoomMemberHandler.change_membership s cf tf a u r m c b n).2 = false := by
  have h := room_check_never_fires s cf tf a u r m c b n
  cases ho : (RoomMemberHandler.change_membership s cf tf a u r m c b n).2 with
  | none => rfl
  | some e =>
    rw [ho] at h
    cases e with
    | unboundLocal v => rfl
    | room code reason =>
      by_cases hc : code = 403
      · by_cases hr : reason = "Room does not exist"
        · subst hc; subst hr; exact absurd rfl h
        · simp [is_room_missing_err, hr]
      · simp [is_room_missing_err, hc]

theorem invite_char (s : Store) (c t r cnt : String) (n : Nat) :
    RoomMemberHandler.change_membership s false false c t r Membership.INVITE cnt false n =
      (if invite_allowed s r c t
       then (s.store_room_member r t Membership.INVITE cnt, none)
       else (s, some (.room 403 "Cannot invite."))) := by
  rw [change_membership_nofault, transition_check_invite_raw]
  unfold invite_allowed
  cases hc : member_joined (s.get_room_member r c) <;>
    cases ht : member_joined (s.get_room_member r t) <;> simp

theorem join_char (s : Store) (a u r cnt : String) (n : Nat) :
    RoomMemberHandler.change_membership s false false a u r Membership.JOIN cnt false n =
      (if join_allowed s r a u
       then (s.store_room_member r u Membership.JOIN cnt, none)
       else (s, some (.room 403 "Cannot join."))) := by
  rw [change_membership_nofault, transition_check_join_raw]
  unfold join_allowed
  cases hau : (a == u) <;>
    cases hin : (match s.get_room_member r a with
      | none => false
      | some cm => cm.membership == Membership.INVITE ||
                   cm.membership == Membership.JOIN) <;>
    simp [hau, hin]

/-! Claim theorems. -/

/-- C1: the spec says a `changeMembership` call on a nonexistent room
raises `AuthorizationError("room does not exist")` before any membership
lookup or write.  In the code the room lookup is not yielded, so the check
tests a truthy Deferred object and can never fire: on a store with no
rooms at all, an invite still proceeds to the membership lookups and
writes the membership record, and over all inputs the result is never the
`RoomError(403, "Room does not exist")` of that check. -/
theorem change_membership_room_existence_check_dead :
    Store.get_room no_room_store "!r" = none ∧
    RoomMemberHandler.change_membership no_room_store false false "a" "b" "!r"
        Membership.INVITE "y" false 0 =
      (Store.store_room_member no_room_store "!r" "b" Membership.INVITE "y", none) ∧
    ∀ (s : Store) (cf tf : Bool) (a u r m c : String) (b : Bool) (n : Nat),
      is_room_missing_err
        (RoomMemberHandler.change_membership s cf tf a u r m c b n).2 = false :=
  ⟨by decide, rfl, room_missing_err_never⟩

/-- C2 counterexample: a store fault on the caller's membership lookup is
not treated like an absent record.  On `bare_room_store` (room exists, no
membership records) a faulting caller lookup makes the join attempt fail
with the `UnboundLocalError` on `caller`, while the same call with a
non-faulting lookup (absent record) fails with `RoomError(403, "Cannot
join.")`: the outcomes differ and an error is surfaced. -/
theorem change_membership_swallowed_fault_cex :
    (RoomMemberHandler.change_membership bare_room_store true false "a" "a" "!r"
        Membership.JOIN "y" false 0).2 = some (.unboundLocal "caller") ∧
    (RoomMemberHandler.change_membership bare_room_store false false "a" "a" "!r"
        Membership.JOIN "y" false 0).2 = some (.room 403 "Cannot join.") :=
  ⟨rfl, rfl⟩

/-- C2 amended: when the caller's (resp. target's) membership lookup
faults, the `except: pass` swallows the store exception but the local
`caller` (resp. `target`) was never assigned, so the handler raises an
`UnboundLocalError` on the very next line, before any transition decision
or membership write; the store state is unchanged and the surfaced error
is the unbound-local one, not the store's. -/
theorem change_membership_fault_raises_unbound_local (s : Store) (tf : Bool)
    (a u r m c : String) (b : Bool) (n : Nat) :
    RoomMemberHandler.change_membership s true tf a u r m c b n =
      (s, some (.unboundLocal "caller")) ∧
    RoomMemberHandler.change_membership s false true a u r m c b n =
      (s, some (.unboundLocal "target")) :=
  ⟨rfl, rfl⟩

/-- C3: an INVITE `changeMembership` succeeds iff the caller's current
state is JOIN and the target's is not, storing `Membership{state=INVITE}`
for the target (visible as the target's new current record); in every
other case it raises `RoomError(403, "Cannot invite.")`. -/
theorem change_membership_invite_iff (s : Store) (c t r cnt : String) (n : Nat) :
    RoomMemberHandler.change_membership s false false c t r Membership.INVITE cnt false n =
      (if invite_allowed s r c t
       then (s.store_room_member r t Membership.INVITE cnt, none)
       else (s, some (.room 403 "Cannot invite."))) ∧
    (s.store_room_member r t Membership.INVITE cnt).get_room_member r t =
      some ⟨r, t, Membership.INVITE, cnt⟩ :=
  ⟨invite_char s c t r cnt n, store_member_lookup_self s r t Membership.INVITE cnt⟩

/-- C4: a JOIN `changeMembership` succeeds iff the caller id equals the
target id and the caller's current state is INVITE or JOIN, and otherwise
raises `RoomError(403, "Cannot join.")`; in particular joining with no
prior record is denied, joining from state LEAVE is denied, and re-joining
an already-JOINed user succeeds (idempotent re-join). -/
theorem change_membership_join_iff (s : Store) (a u r cnt : String) (n : Nat) :
    (RoomMemberHandler.change_membership s false false a u r Membership.JOIN cnt false n =
      (if join_allowed s r a u
       then (s.store_room_member r u Membership.JOIN cnt, none)
       else (s, some (.room 403 "Cannot join.")))) ∧
    (s.get_room_member r a = none →
      RoomMemberHandler.change_membership s false false a u r Membership.JOIN cnt false n =
        (s, some (.room 403 "Cannot join."))) ∧
    (∀ cm : MemberRec, s.get_room_member r a = some cm →
      cm.membership = Membership.LEAVE →
      RoomMemberHandler.change_membership s false false a u r Membership.JOIN cnt false n =
        (s, some (.room 403 "Cannot join."))) ∧
    (∀ cm : MemberRec, s.get_room_member r a = some cm →
      cm.membership = Membership.JOIN → a = u →
      RoomMemberHandler.change_membership s false false a u r Membership.JOIN cnt false n =
        (s.store_room_member r u Membership.JOIN cnt, none)) := by
  refine ⟨join_char s a u r cnt n, ?_, ?_, ?_⟩
  · intro hm
    rw [join_char]
    simp [join_allowed, hm]
  · intro cm hm hcm
    rw [join_char]
    have hfalse : join_allowed s r a u = false := by
      simp [join_allowed, hm, hcm]
      exact fun _ => ⟨by decide, by decide⟩
    simp [hfalse]
  · intro cm hm hcm hau
    subst hau
    rw [join_char]
    have htrue : join_allowed s r a a = true := by
      simp [join_allowed, hm, hcm]
    simp [htrue]

/-- C4 witness: on `demo_store` (only `a` is joined in `!r`), user `b`
joining with no prior record is denied, and `a` re-joining from state JOIN
succeeds idempotently. -/
theorem change_membership_join_iff_witness :
    RoomMemberHandler.change_membership demo_store false false "b" "b" "!r"
        Membership.JOIN "y" false 0 =
      (demo_store, some (.room 403 "Cannot join.")) ∧
    RoomMemberHandler.change_membership demo_store false false "a" "a" "!r"
        Membership.JOIN "y" false 0 =
      (demo_store.store_room_member "!r" "a" Membership.JOIN "y", none) :=
  ⟨(change_membership_join_iff demo_store "b" "b" "!r" "y" 0).2.1 (by decide),
   (change_membership_join_iff demo_store "a" "a" "!r" "y" 0).2.2.2
     ⟨"!r", "a", "join", "x"⟩ (by decide) rfl rfl⟩

/-- C5: `get_room_path_data` decides access exactly as the spec states:
room must exist; a topic-kind event replaces the private rule list by
`[INVITE, JOIN]` for that call only (the local rebinding; the default
values, being pure values here, are shared with no call and the
default-argument form is literally the call with `[]` and `[JOIN]`);
a public room with non-empty public rules (resp. a private room with
non-empty private rules) requires the requester's state — `none` for an
absent record — to be in the list, else denies; an empty applicable rule
list allows unconditionally. -/
theorem get_room_path_data_decision (s : Store) (etype rid : String)
    (auth : Option String) (path : String) (pub priv : List String) :
    (MessageHandler.get_room_path_data s etype rid auth path pub priv =
      (match s.get_room rid with
       | none => .error (.room 403 "Room does not exist.")
       | some room =>
         let priv2 := if etype == RoomTopicEvent.TYPE
           then [Membership.INVITE, Membership.JOIN] else priv
         let st := (s.get_room_member rid (auth_lookup_id auth)).map
           (fun mm => mm.membership)
         if spec_path_access room.is_public st pub priv2
         then .ok (s.get_path_data path)
         else .error (.room 403 (if room.is_public
           then "Member does not meet public room rules."
           else "Member does not meet private room rules.")))) ∧
    get_room_path_data_default s etype rid auth path =
      MessageHandler.get_room_path_data s etype rid auth path [] [Membership.JOIN] := by
  refine ⟨?_, rfl⟩
  unfold MessageHandler.get_room_path_data spec_path_access
  cases hroom : s.get_room rid with
  | none => simp [hroom]
  | some room =>
    simp only [hroom]
    obtain ⟨rid', ispub, cre⟩ := room
    cases hty : (etype == RoomTopicEvent.TYPE) <;>
      simp only [hty] <;>
      cases ispub <;>
      rcases pub with _ | ⟨p, ps⟩ <;>
      rcases priv with _ | ⟨q, qs⟩ <;>
      simp [state_in_rules] <;>
      cases hst : (s.get_room_member rid (auth_lookup_id auth)) <;>
      simp [hst]
    all_goals split_ifs <;> simp_all

/-- C6: `send_message` with a (truthy) requester present raises
`RoomError(403, "Must send messages as yourself.")` when the author id
differs from the requester id, raises the not-joined `RoomError(403, ...)`
when the requester is not in JOIN state in the room, and otherwise stores
the message; with no requester both checks are bypassed and the message is
stored unconditionally (the system path used by the notifier). -/
theorem send_message_authorization (s : Store) (rid uid a mid : String)
    (cnt : MsgContent) (ha : a ≠ "") :
    (uid ≠ a →
      MessageHandler.send_message s rid uid (some a) mid cnt =
        (s, some (.room 403 "Must send messages as yourself."))) ∧
    (uid = a → member_joined (s.get_room_member rid a) = false →
      MessageHandler.send_message s rid uid (some a) mid cnt =
        (s, some (.room 403 not_joined_reason))) ∧
    (uid = a → member_joined (s.get_room_member rid a) = true →
      MessageHandler.send_message s rid uid (some a) mid cnt =
        (s.store_message uid rid mid cnt, none)) ∧
    MessageHandler.send_message s rid uid none mid cnt =
      (s.store_message uid rid mid cnt, none) := by
  refine ⟨?_, ?_, ?_, rfl⟩
  · intro h
    simp [MessageHandler.send_message, ha, h]
  · intro h hj
    subst h
    simp [MessageHandler.send_message, ha, get_joined_or_throw_false s rid uid hj]
  · intro h hj
    subst h
    cases hm : s.get_room_member rid uid with
    | none => rw [hm] at hj; simp [member_joined] at hj
    | some mrec =>
      simp [MessageHandler.send_message, ha,
        get_joined_or_throw_true s rid uid mrec hm hj, json_dumps]

/-- C6 witness: on `demo_store`, requester `a` sending as author `b` is
rejected with the must-send-as-yourself error. -/
theorem send_message_authorization_witness :
    MessageHandler.send_message demo_store "!r" "b" (some "a") "m1" (.blob "hi") =
      (demo_store, some (.room 403 "Must send messages as yourself.")) :=
  (send_message_authorization demo_store "!r" "b" "a" "m1" (.blob "hi")
    (by decide)).1 (by decide)

/-- C7: a `changeMembership` call whose requested state is none of INVITE,
JOIN, LEAVE (e.g. KNOCK) raises `RoomError(500, "Unknown membership " ++
m)`, and every rejected call (any surfaced `RoomError`) leaves the store —
hence the membership state of every `(room, target)` pair — unchanged. -/
theorem change_membership_unknown_state_no_write (s : Store) (cf tf : Bool)
    (a u r m c : String) (b : Bool) (n : Nat) :
    (m ≠ Membership.INVITE → m ≠ Membership.JOIN → m ≠ Membership.LEAVE →
      RoomMemberHandler.change_membership s false false a u r m c b n =
        (s, some (.room 500 ("Unknown membership " ++ m)))) ∧
    (∀ (code : Nat) (reason : String),
      (RoomMemberHandler.change_membership s cf tf a u r m c b n).2 =
        some (.room code reason) →
      (RoomMemberHandler.change_membership s cf tf a u r m c b n).1 = s) := by
  constructor
  · intro h1 h2 h3
    rw [change_membership_nofault,
      transition_check_unknown (s.get_room_member r a) (s.get_room_member r u)
        a u m h1 h2 h3]
  · intro code reason h
    cases cf
    case true => simp [RoomMemberHandler.change_membership, deferred_truthy] at h
    case false =>
    cases tf
    case true => simp [RoomMemberHandler.change_membership, deferred_truthy] at h
    case false =>
    rw [change_membership_nofault] at h ⊢
    cases htc : transition_check (s.get_room_member r a) (s.get_room_member r u) a u m with
    | some e => rfl
    | none =>
      rw [htc] at h
      cases b
      · simp at h
      · rcases transition_check_none_mem _ _ _ _ _ htc with hm | hm | hm <;> subst hm <;>
          simp [inject_invite, inject_join, inject_leave] at h

/-- C7 witness: on `demo_store` a KNOCK request is rejected with the
unknown-membership `RoomError(500, ...)` and the store is unchanged. -/
theorem change_membership_unknown_state_no_write_witness :
    RoomMemberHandler.change_membership demo_store false false "a" "b" "!r"
        Membership.KNOCK "y" false 0 =
      (demo_store, some (.room 500 ("Unknown membership " ++ Membership.KNOCK))) ∧
    (RoomMemberHandler.change_membership demo_store false false "a" "b" "!r"
        Membership.KNOCK "y" false 0).1 = demo_store :=
  ⟨(change_membership_unknown_state_no_write demo_store false false "a" "b" "!r"
      Membership.KNOCK "y" false 0).1 (by decide) (by decide) (by decide),
   (change_membership_unknown_state_no_write demo_store false false "a" "b" "!r"
      Membership.KNOCK "y" false 0).2 500 ("Unknown membership " ++ Membership.KNOCK)
      (by decide)⟩

/-- C8: `create_room` maps a store fault to `RoomError(500, "Unable to
create room.")` with the store unchanged, maps a falsy store result (id
conflict) to `RoomError(409, "Room ID in use.")`, and otherwise returns
the new room id with the room recorded; creating twice with the same
explicit id succeeds once and conflicts the second time. -/
theorem create_room_error_mapping (s : Store) (uid vis rid : String)
    (orid : Option String) :
    (RoomCreationHandler.create_room s true uid orid vis =
      (s, .error (.room 500 "Unable to create room."))) ∧
    (s.rooms.any (fun rm => rm.room_id == rid) = true →
      RoomCreationHandler.create_room s false uid (some rid) vis =
        (s, .error (.room 409 "Room ID in use."))) ∧
    (s.rooms.any (fun rm => rm.room_id == rid) = false →
      RoomCreationHandler.create_room s false uid (some rid) vis =
        ({ s with rooms := ⟨rid, vis == "public", uid⟩ :: s.rooms }, .ok rid)) ∧
    (s.rooms.any (fun rm => rm.room_id == rid) = false →
      (RoomCreationHandler.create_room
        (RoomCreationHandler.create_room s false uid (some rid) vis).1
        false uid (some rid) vis).2 =
        .error (.room 409 "Room ID in use.")) := by
  refine ⟨rfl, ?_, ?_, ?_⟩
  · intro h
    simp [RoomCreationHandler.create_room, Store.store_room, h]
  · intro h
    simp [RoomCreationHandler.create_room, Store.store_room, h]
  · intro h
    simp [RoomCreationHandler.create_room, Store.store_room, h]

/-- C8 witness: creating `!abc` twice on an empty store returns the id the
first time and the in-use conflict the second time. -/
theorem create_room_error_mapping_witness :
    RoomCreationHandler.create_room empty_store false "u1" (some "!abc") "private" =
      ({ empty_store with
          rooms := ⟨"!abc", ("private" == "public"), "u1"⟩ :: empty_store.rooms },
        .ok "!abc") ∧
    (RoomCreationHandler.create_room
      (RoomCreationHandler.create_room empty_store false "u1" (some "!abc") "private").1
      false "u1" (some "!abc") "private").2 =
      .error (.room 409 "Room ID in use.") :=
  ⟨(create_room_error_mapping empty_store "u1" "private" "!abc" none).2.2.1 (by decide),
   (create_room_error_mapping empty_store "u1" "private" "!abc" none).2.2.2 (by decide)⟩

/-- C9: a successful `changeMembership` with the broadcast flag makes the
notifier send exactly one message (prepended to the post-write store's
message list) whose body comes from the fixed template for the new state,
authored by the reserved system actor `"_hs_"` with no requester — so it
passes `send_message` with no authorization check — and with msg id
`"m" ++ now`; on any other membership value the notifier raises
`RoomError(500, "Unknown membership value " ++ m)`. -/
theorem membership_broadcast_message (s : Store) (a u r c : String) (n : Nat) :
    (member_joined (s.get_room_member r a) = true →
     member_joined (s.get_room_member r u) = false →
      RoomMemberHandler.change_membership s false false a u r Membership.INVITE c true n =
        ((s.store_room_member r u Membership.INVITE c).store_message "_hs_" r
          ("m" ++ toString n)
          (.dict "sy.text" (a ++ " invited " ++ u ++ " to the room.")), none)) ∧
    (∀ cm : MemberRec, a = u → s.get_room_member r a = some cm →
     (cm.membership = Membership.INVITE ∨ cm.membership = Membership.JOIN) →
      RoomMemberHandler.change_membership s false false a u r Membership.JOIN c true n =
        ((s.store_room_member r u Membership.JOIN c).store_message "_hs_" r
          ("m" ++ toString n)
          (.dict "sy.text" (u ++ " joined the room.")), none)) ∧
    (member_joined (s.get_room_member r a) = true → u = a →
      RoomMemberHandler.change_membership s false false a u r Membership.LEAVE c true n =
        ((s.store_room_member r u Membership.LEAVE c).store_message "_hs_" r
          ("m" ++ toString n)
          (.dict "sy.text" (u ++ " left the room.")), none)) ∧
    (∀ m : String, m ≠ Membership.INVITE → m ≠ Membership.JOIN → m ≠ Membership.LEAVE →
      RoomMemberHandler._inject_membership_msg s n r a u m =
        (s, some (.room 500 ("Unknown membership value " ++ m)))) := by
  refine ⟨?_, ?_, ?_, ?_⟩
  · intro hc ht
    rw [change_membership_nofault, transition_check_invite_raw]
    simp [hc, ht, inject_invite]
  · intro cm hau hm hcm
    subst hau
    rw [change_membership_nofault, transition_check_join_raw]
    rcases hcm with h | h <;> simp [hm, h, inject_join]
  · intro hc hau
    subst hau
    rw [change_membership_nofault, transition_check_leave_raw]
    simp [hc, inject_leave]
  · intro m h1 h2 h3
    simp [RoomMemberHandler._inject_membership_msg, h1, h2, h3]

/-- C9 witness: on `demo_store`, `a` inviting `b` with the broadcast flag
stores the membership record and then exactly the system-authored invite
message. -/
theorem membership_broadcast_message_witness :
    RoomMemberHandler.change_membership demo_store false false "a" "b" "!r"
        Membership.INVITE "y" true 5 =
      ((demo_store.store_room_member "!r" "b" Membership.INVITE "y").store_message
        "_hs_" "!r" ("m" ++ toString 5)
        (.dict "sy.text" ("a" ++ " invited " ++ "b" ++ " to the room.")), none) :=
  (membership_broadcast_message demo_store "a" "b" "!r" "y" 5).1 (by decide) (by decide)

/-- C10: `get_room_member` with a (truthy) requester present requires the
requester to be in JOIN state in the room, raising the not-joined
`RoomError(403, ...)` otherwise; on success it returns the stored
membership record for the target (`none` when no record exists — absence
is not an error), and with no requester the check is skipped. -/
theorem get_room_member_requires_join (s : Store) (r u a : String) (ha : a ≠ "") :
    (member_joined (s.get_room_member r a) = false →
      RoomMemberHandler.get_room_member s r u (some a) =
        .error (.room 403 not_joined_reason)) ∧
    (member_joined (s.get_room_member r a) = true →
      RoomMemberHandler.get_room_member s r u (some a) =
        .ok (s.get_room_member r u)) ∧
    RoomMemberHandler.get_room_member s r u none = .ok (s.get_room_member r u) := by
  refine ⟨?_, ?_, rfl⟩
  · intro hj
    simp [RoomMemberHandler.get_room_member, ha, get_joined_or_throw_false s r a hj]
  · intro hj
    cases hm : s.get_room_member r a with
    | none => rw [hm] at hj; simp [member_joined] at hj
    | some mrec =>
      simp [RoomMemberHandler.get_room_member, ha,
        get_joined_or_throw_true s r a mrec hm hj]

/-- C10 witness: on `demo_store`, requester `b` (not joined) asking for
`a`'s membership record is rejected with the not-joined error. -/
theorem get_room_member_requires_join_witness :
    RoomMemberHandler.get_room_member demo_store "!r" "a" (some "b") =
      .error (.room 403 not_joined_reason) :=
  (get_room_member_requires_join demo_store "!r" "a" "b" (by decide)).1 (by decide)

end Synapse
